import Mathlib

/-!
Verification of the Figma design-tree extractor (`figma-fetch.js`, enhanced
extractor: `extractNodeStructure`, `getImages`, `collectImageNodes`,
`getNodeStructure`).

The JavaScript source is shallowly embedded: JS numbers are modelled as
rationals (`ℚ`), JS strings as `String`, possibly-missing JS fields as
`Option`, and the asynchronous image request as an `Except`-valued response
parameter.  JS `Math.round` is `Rat.floor (q + 1/2)`, exactly JS semantics.
Decimal rendering of numbers embedded into class tokens is handled by
`numStr`; every value a theorem evaluates is an integer, where `numStr`
agrees with JS `${n}` rendering.
-/

namespace Figma

/-- Fuel-indexed digit accumulation for rendering a natural number. -/
def digitChar (n : Nat) : Char :=
  if n = 0 then '0' else if n = 1 then '1' else if n = 2 then '2' else if n = 3 then '3'
  else if n = 4 then '4' else if n = 5 then '5' else if n = 6 then '6' else if n = 7 then '7'
  else if n = 8 then '8' else '9'

def natToStringAux : Nat → Nat → List Char
  | 0, _ => []
  | fuel + 1, n =>
    if n < 10 then [digitChar n]
    else natToStringAux fuel (n / 10) ++ [digitChar (n % 10)]

/-- Decimal rendering of a natural number (kernel-reducible). -/
def natToString (n : Nat) : String := String.mk (natToStringAux (n + 1) n)

/-- Decimal rendering of an integer, as JS template interpolation renders one. -/
def intToString : ℤ → String
  | .ofNat m => natToString m
  | .negSucc m => "-" ++ natToString (m + 1)

/-- JS `Math.round`: floor of x + 1/2 (this is exactly ECMA-262 semantics,
and equals round-half-away-from-zero on nonnegative input). -/
def jsRound (q : ℚ) : ℤ := Rat.floor (q + 1/2)

/-- Rendering of a JS number interpolated into a template string.  For the
integral values the theorems evaluate this matches JS exactly; non-integral
rationals are rendered as `num/den` where JS would print a decimal
expansion (no claim depends on that rendering). -/
def numStr (q : ℚ) : String :=
  if q.den = 1 then intToString q.num
  else intToString q.num ++ "/" ++ natToString q.den

def padLeftZeros (s : String) (w : Nat) : String :=
  if s.length ≥ w then s else String.mk (List.replicate (w - s.length) '0') ++ s

/-- JS `Number.prototype.toFixed(d)` for the values reached here. -/
def toFixed (d : Nat) (q : ℚ) : String :=
  let p : ℤ := (10 : ℤ) ^ d
  let n : ℤ := jsRound (q * (p : ℚ))
  let sign := if n < 0 then "-" else ""
  let a := n.natAbs
  sign ++ natToString (a / p.natAbs) ++ "." ++ padLeftZeros (natToString (a % p.natAbs)) d

/-- JS `x.opacity || 1`: `undefined` and `0` are falsy, so both yield 1. -/
def jsOrOne : Option ℚ → ℚ
  | none => 1
  | some q => if q = 0 then 1 else q

/-- JS truthiness of a possibly-missing string (`undefined` and `""` are falsy). -/
def jsTruthyStr : Option String → Bool
  | none => false
  | some s => s ≠ ""

/-- JS truthiness of a possibly-missing number (`undefined` and `0` are falsy). -/
def jsTruthyNum : Option ℚ → Bool
  | none => false
  | some q => q ≠ 0

/-- A paint's `color` object: components are floats in [0,1] in the API. -/
structure Color where
  r : ℚ
  g : ℚ
  b : ℚ
deriving Repr, DecidableEq

/-- One entry of a node's `fills`/`strokes` array. -/
structure Paint where
  type : String
  visible : Option Bool
  color : Option Color
  opacity : Option ℚ
deriving Repr, DecidableEq

/-- `` `${Math.round(r*255)} ${Math.round(g*255)} ${Math.round(b*255)}` `` -/
def rgbKey (c : Color) : String :=
  intToString (jsRound (c.r * 255)) ++ " " ++ intToString (jsRound (c.g * 255))
    ++ " " ++ intToString (jsRound (c.b * 255))

/-- `commonColors` object in the fill branch. -/
def commonColors : List (String × String) :=
  [("255 255 255", "bg-white"), ("0 0 0", "bg-black"), ("239 68 68", "bg-red-500"),
   ("34 197 94", "bg-green-500"), ("59 130 246", "bg-blue-500"),
   ("168 85 247", "bg-purple-500"), ("245 101 101", "bg-red-400"),
   ("156 163 175", "bg-gray-400")]

/-- `commonBorderColors` object in the stroke branch. -/
def commonBorderColors : List (String × String) :=
  [("255 255 255", "border-white"), ("0 0 0", "border-black"),
   ("229 231 235", "border-gray-200"), ("156 163 175", "border-gray-400"),
   ("75 85 99", "border-gray-600")]

/-- `commonTextColors` object in the text-fill branch. -/
def commonTextColors : List (String × String) :=
  [("0 0 0", "text-black"), ("255 255 255", "text-white"),
   ("107 114 128", "text-gray-500"), ("75 85 99", "text-gray-600"),
   ("55 65 81", "text-gray-700"), ("31 41 55", "text-gray-800"),
   ("17 24 39", "text-gray-900")]

/-- The color-token pattern the source repeats for fills, strokes and text
fills: `alpha = paint.opacity || 1`; named token iff `alpha === 1` and the
integer-rounded `"R G B"` key is present in the table; an alpha-embedding
arbitrary-value token iff `alpha < 1`; else an rgb-only arbitrary-value
token.  `pre` is `"bg"`, `"border"` or `"text"`. -/
def colorToken (table : List (String × String)) (pre : String)
    (c : Color) (opacity : Option ℚ) : String :=
  let alpha := jsOrOne opacity
  let rgb := rgbKey c
  match (if alpha = 1 then List.lookup rgb table else none) with
  | some name => name
  | none =>
    if alpha < 1 then pre ++ "-[rgb(" ++ rgb ++ "/" ++ numStr alpha ++ ")]"
    else pre ++ "-[rgb(" ++ rgb ++ ")]"

def bgColorToken (c : Color) (opacity : Option ℚ) : String :=
  colorToken commonColors "bg" c opacity

def borderColorToken (c : Color) (opacity : Option ℚ) : String :=
  colorToken commonBorderColors "border" c opacity

def textColorToken (c : Color) (opacity : Option ℚ) : String :=
  colorToken commonTextColors "text" c opacity

/-- `gapMap` in the `itemSpacing` branch. -/
def gapList : List (ℚ × String) :=
  [(0, "gap-0"), (1, "gap-0.5"), (2, "gap-0.5"), (4, "gap-1"), (6, "gap-1.5"),
   (8, "gap-2"), (10, "gap-2.5"), (12, "gap-3"), (16, "gap-4"), (20, "gap-5"),
   (24, "gap-6"), (32, "gap-8")]

/-- `gapMap[node.itemSpacing] || gap-[..px]` (every map value is truthy). -/
def gapToken (v : ℚ) : String :=
  (List.lookup v gapList).getD ("gap-[" ++ numStr v ++ "px]")

/-- `spacingMap` in the padding branch. -/
def spacingList : List (ℚ × String) :=
  [(0, "0"), (1, "0.5"), (2, "0.5"), (4, "1"), (6, "1.5"), (8, "2"), (10, "2.5"),
   (12, "3"), (14, "3.5"), (16, "4"), (20, "5"), (24, "6"), (28, "7"), (32, "8"),
   (36, "9"), (40, "10"), (44, "11"), (48, "12"), (56, "14"), (64, "16")]

/-- Combined-padding token: `spacing ? p-..' : p-[..px]` (every map value,
including `"0"`, is a truthy string). -/
def pToken (v : ℚ) : String :=
  match List.lookup v spacingList with
  | some s => "p-" ++ s
  | none => "p-[" ++ numStr v ++ "px]"

/-- Per-side padding token, `pre` one of `pt` `pr` `pb` `pl`. -/
def sideToken (pre : String) (v : ℚ) : String :=
  match List.lookup v spacingList with
  | some s => pre ++ "-" ++ s
  | none => pre ++ "-[" ++ numStr v ++ "px]"

/-- The padding branch: one combined token when all four sides are equal,
otherwise four per-side tokens (top, right, bottom, left). -/
def paddingTokens (top right bottom left : ℚ) : List String :=
  if top = right ∧ right = bottom ∧ bottom = left then [pToken top]
  else [sideToken "pt" top, sideToken "pr" right, sideToken "pb" bottom, sideToken "pl" left]

/-- `roundedMap` in the `cornerRadius` branch. -/
def roundedList : List (ℚ × String) :=
  [(0, "rounded-none"), (2, "rounded-sm"), (4, "rounded"), (6, "rounded-md"),
   (8, "rounded-lg"), (12, "rounded-xl"), (16, "rounded-2xl"), (24, "rounded-3xl"),
   (9999, "rounded-full")]

def roundedToken (v : ℚ) : String :=
  (List.lookup v roundedList).getD ("rounded-[" ++ numStr v ++ "px]")

/-- The `roundedMap` in the `rectangleCornerRadii` branch (no 9999 entry). -/
def roundedList4 : List (ℚ × String) :=
  [(0, "rounded-none"), (2, "rounded-sm"), (4, "rounded"), (6, "rounded-md"),
   (8, "rounded-lg"), (12, "rounded-xl"), (16, "rounded-2xl"), (24, "rounded-3xl")]

def rectRadiiToken (tl tr br bl : ℚ) : String :=
  if tl = tr ∧ tr = br ∧ br = bl then
    (List.lookup tl roundedList4).getD ("rounded-[" ++ numStr tl ++ "px]")
  else
    "[border-radius:" ++ numStr tl ++ "px_" ++ numStr tr ++ "px_" ++ numStr br
      ++ "px_" ++ numStr bl ++ "px]"

/-- `borderWidthMap` in the stroke branch. -/
def borderWidthList : List (ℚ × String) :=
  [(1, "border"), (2, "border-2"), (4, "border-4"), (8, "border-8")]

def borderWidthToken (w : ℚ) : String :=
  (List.lookup w borderWidthList).getD ("border-[" ++ numStr w ++ "px]")

/-- `alignMap` for `primaryAxisAlignItems`: each value is chosen by the
ternary `node.layoutMode === 'HORIZONTAL' ? justify-.. : items-..`. -/
def primaryAlignToken (layoutMode : Option String) (a : String) : Option String :=
  let isH := layoutMode = some "HORIZONTAL"
  if a = "MIN" then some (if isH then "justify-start" else "items-start")
  else if a = "CENTER" then some (if isH then "justify-center" else "items-center")
  else if a = "MAX" then some (if isH then "justify-end" else "items-end")
  else if a = "SPACE_BETWEEN" then some "justify-between"
  else none

/-- `counterAlignMap` for `counterAxisAlignItems`: the ternaries are swapped
relative to the primary map (`items-..` under HORIZONTAL). -/
def counterAlignToken (layoutMode : Option String) (a : String) : Option String :=
  let isH := layoutMode = some "HORIZONTAL"
  if a = "MIN" then some (if isH then "items-start" else "justify-start")
  else if a = "CENTER" then some (if isH then "items-center" else "justify-center")
  else if a = "MAX" then some (if isH then "items-end" else "justify-end")
  else none

/-- `fontMap` in the `fontName` branch. -/
def fontList : List (String × String) :=
  [("Inter", "font-inter"), ("Roboto", "font-roboto"), ("Arial", "font-sans"),
   ("Helvetica", "font-sans")]

def fontFamilyToken (family : String) : String :=
  (List.lookup family fontList).getD ("font-[\x27" ++ family ++ "\x27]")

/-- `weightMap` in the `fontName.style` branch; unknown styles default to
`font-normal`. -/
def weightList : List (String × String) :=
  [("Regular", "font-normal"), ("Medium", "font-medium"), ("SemiBold", "font-semibold"),
   ("Bold", "font-bold"), ("Light", "font-light"), ("Thin", "font-thin")]

def fontWeightToken (style : String) : String :=
  (List.lookup style weightList).getD "font-normal"

/-- `alignMap` in the `textAlignHorizontal` branch; unknown values default to
`text-left`. -/
def textAlignList : List (String × String) :=
  [("LEFT", "text-left"), ("CENTER", "text-center"), ("RIGHT", "text-right"),
   ("JUSTIFIED", "text-justify")]

def textAlignToken (a : String) : String :=
  (List.lookup a textAlignList).getD "text-left"

/-- A `lineHeight`/`letterSpacing` object (`{ value, unit }`). -/
structure UnitValue where
  value : ℚ
  unit : String
deriving Repr, DecidableEq

/-- The `lineHeight` branch; entered only when `lineHeight.value` is truthy. -/
def lineHeightToken (lh : UnitValue) : Option String :=
  if lh.unit = "PIXELS" then some ("leading-[" ++ numStr lh.value ++ "px]")
  else if lh.unit = "PERCENT" then some ("leading-[" ++ toFixed 1 (lh.value / 100) ++ "]")
  else none

/-- The `letterSpacing` branch; entered only when `letterSpacing.value` is truthy. -/
def letterSpacingToken (ls : UnitValue) : Option String :=
  if ls.unit = "PIXELS" then some ("tracking-[" ++ numStr ls.value ++ "px]")
  else if ls.unit = "PERCENT" then some ("tracking-[" ++ toFixed 3 (ls.value / 100) ++ "em]")
  else none

structure EffectOffset where
  x : ℚ
  y : ℚ
deriving Repr, DecidableEq

/-- A shadow effect's color carries its own alpha channel `a`. -/
structure ShadowColor where
  r : ℚ
  g : ℚ
  b : ℚ
  a : Option ℚ
deriving Repr, DecidableEq

structure Effect where
  type : String
  visible : Option Bool
  offset : EffectOffset
  radius : ℚ
  color : ShadowColor
deriving Repr, DecidableEq

/-- The drop-shadow branch: `alpha = dropShadow.color.a || 1`. -/
def shadowToken (e : Effect) : String :=
  let alpha := jsOrOne e.color.a
  let sc := intToString (jsRound (e.color.r * 255)) ++ " "
    ++ intToString (jsRound (e.color.g * 255)) ++ " " ++ intToString (jsRound (e.color.b * 255))
  if alpha < 1 then
    "shadow-[" ++ numStr e.offset.x ++ "px_" ++ numStr e.offset.y ++ "px_"
      ++ numStr e.radius ++ "px_rgb(" ++ sc ++ "/" ++ numStr alpha ++ ")]"
  else
    "shadow-[" ++ numStr e.offset.x ++ "px_" ++ numStr e.offset.y ++ "px_"
      ++ numStr e.radius ++ "px_rgb(" ++ sc ++ ")]"

structure BoundingBox where
  x : ℚ
  y : ℚ
  width : ℚ
  height : ℚ
deriving Repr, DecidableEq

structure FontName where
  family : String
  style : Option String
deriving Repr, DecidableEq

/-- The four padding sides.  The source guards the whole branch on
`node.paddingLeft !== undefined` and then reads all four sides; auto-layout
nodes carry the four sides together, so they are modelled as one optional
record. -/
structure Padding where
  top : ℚ
  right : ℚ
  bottom : ℚ
  left : ℚ
deriving Repr, DecidableEq

/-- The per-node attributes `extractNodeStructure` reads.  Fields the
extractor only copies into informational sub-objects (`textContent`,
`imageContent`, `vectorContent`, `componentProperties`, `textStyle`) are
omitted: no class token and no statistic depends on them.  `id`, `name` and
`type` are optional: the source never checks their presence. -/
structure NodeData where
  id : Option String
  name : Option String
  type : Option String
  visible : Option Bool
  componentId : Option String
  componentSetId : Option String
  absoluteBoundingBox : Option BoundingBox
  fills : List Paint
  strokes : List Paint
  strokeWeight : Option ℚ
  layoutMode : Option String
  primaryAxisAlignItems : Option String
  counterAxisAlignItems : Option String
  itemSpacing : Option ℚ
  padding : Option Padding
  cornerRadius : Option ℚ
  rectangleCornerRadii : Option (ℚ × ℚ × ℚ × ℚ)
  characters : Option String
  fontSize : Option ℚ
  fontName : Option FontName
  lineHeight : Option UnitValue
  letterSpacing : Option UnitValue
  textAlignHorizontal : Option String
  opacity : Option ℚ
  effects : List Effect
deriving Repr, DecidableEq

/-- A design-tree node: its own attributes plus its ordered children. -/
inductive Node where
  | mk (data : NodeData) (children : List Node)
deriving Repr

def Node.data : Node → NodeData
  | .mk d _ => d

def Node.children : Node → List Node
  | .mk _ cs => cs

/-- `fills.find(fill => fill.type === 'SOLID' && fill.visible !== false)` -/
def findSolidVisible (ps : List Paint) : Option Paint :=
  ps.find? (fun f => f.type == "SOLID" && f.visible != some false)

/-- The `tailwind` object accumulated per node, in the field order the
source pushes into `tailwindClasses`. -/
structure Tailwind where
  display : Option String
  flexDirection : Option String
  primaryAlignment : Option String
  counterAlignment : Option String
  gap : Option String
  width : Option String
  height : Option String
  padding : Option String
  backgroundColor : Option String
  borderWidth : Option String
  borderColor : Option String
  borderRadius : Option String
  fontSize : Option String
  fontFamily : Option String
  fontWeight : Option String
  lineHeight : Option String
  letterSpacing : Option String
  textAlign : Option String
  textColor : Option String
  opacity : Option String
  shadow : Option String
deriving Repr, DecidableEq

/-- The per-node style computation of `extractNodeStructure` (lines 176-489
of the enhanced extractor): each field is set exactly when the source
assigns the corresponding `tailwind.<field>`. -/
def buildTailwind (node : NodeData) : Tailwind :=
  { display :=
      if jsTruthyStr node.layoutMode then none
      else if node.type = some "FRAME" ∨ node.type = some "GROUP" then some "block"
      else none
    flexDirection :=
      if jsTruthyStr node.layoutMode then
        if node.layoutMode = some "VERTICAL" then some "flex flex-col"
        else if node.layoutMode = some "HORIZONTAL" then some "flex flex-row"
        else none
      else none
    primaryAlignment :=
      if jsTruthyStr node.primaryAxisAlignItems then
        primaryAlignToken node.layoutMode (node.primaryAxisAlignItems.getD "")
      else none
    counterAlignment :=
      if jsTruthyStr node.counterAxisAlignItems then
        counterAlignToken node.layoutMode (node.counterAxisAlignItems.getD "")
      else none
    gap := node.itemSpacing.map gapToken
    width := node.absoluteBoundingBox.map
      (fun bb => "w-[" ++ intToString (jsRound bb.width) ++ "px]")
    height := node.absoluteBoundingBox.map
      (fun bb => "h-[" ++ intToString (jsRound bb.height) ++ "px]")
    padding := node.padding.map
      (fun p => String.intercalate " " (paddingTokens p.top p.right p.bottom p.left))
    backgroundColor :=
      (findSolidVisible node.fills).bind
        (fun f => f.color.map (fun c => bgColorToken c f.opacity))
    borderWidth :=
      if node.strokes ≠ [] ∧ jsTruthyNum node.strokeWeight then
        some (borderWidthToken (node.strokeWeight.getD 0))
      else none
    borderColor :=
      if node.strokes ≠ [] then
        (findSolidVisible node.strokes).bind
          (fun s => s.color.map (fun c => borderColorToken c s.opacity))
      else none
    borderRadius :=
      match node.rectangleCornerRadii with
      | some (tl, tr, br, bl) => some (rectRadiiToken tl tr br bl)
      | none => node.cornerRadius.map roundedToken
    fontSize :=
      match node.fontSize with
      | some fs => if fs = 0 then none else some ("text-[" ++ numStr fs ++ "px]")
      | none => none
    fontFamily := node.fontName.map (fun fn => fontFamilyToken fn.family)
    fontWeight := node.fontName.bind
      (fun fn =>
        match fn.style with
        | some st => if st = "" then none else some (fontWeightToken st)
        | none => none)
    lineHeight := node.lineHeight.bind
      (fun lh => if lh.value = 0 then none else lineHeightToken lh)
    letterSpacing := node.letterSpacing.bind
      (fun ls => if ls.value = 0 then none else letterSpacingToken ls)
    textAlign :=
      if jsTruthyStr node.textAlignHorizontal then
        some (textAlignToken (node.textAlignHorizontal.getD ""))
      else none
    textColor :=
      if node.type = some "TEXT" then
        (findSolidVisible node.fills).bind
          (fun f => f.color.map (fun c => textColorToken c f.opacity))
      else none
    opacity :=
      match node.opacity with
      | some o => if o = 1 then none else some ("opacity-[" ++ intToString (jsRound (o * 100)) ++ "%]")
      | none => none
    shadow :=
      (node.effects.find? (fun e => e.type == "DROP_SHADOW" && e.visible == some true)).map
        shadowToken }

/-- The 21 `tailwind` fields in the exact order the source pushes them into
the `tailwindClasses` array (lines 491-527). -/
def allProjs : List (Tailwind → Option String) :=
  [Tailwind.display, Tailwind.flexDirection, Tailwind.primaryAlignment,
   Tailwind.counterAlignment, Tailwind.gap, Tailwind.width, Tailwind.height,
   Tailwind.padding, Tailwind.backgroundColor, Tailwind.borderWidth,
   Tailwind.borderColor, Tailwind.borderRadius, Tailwind.fontSize,
   Tailwind.fontFamily, Tailwind.fontWeight, Tailwind.lineHeight,
   Tailwind.letterSpacing, Tailwind.textAlign, Tailwind.textColor,
   Tailwind.opacity, Tailwind.shadow]

/-- The `tailwindClasses` array before the type-based fallback: each present
field is pushed in the fixed order (every assigned token is a nonempty,
hence truthy, string). -/
def tokensOf (tw : Tailwind) : List String :=
  allProjs.filterMap (fun f => f tw)

/-- The `switch (node.type)` fallback for nodes with no matched styling. -/
def fallbackToken : Option String → String
  | some "TEXT" => "text-base"
  | some "FRAME" => "block"
  | some "GROUP" => "block"
  | some "INSTANCE" => "block"
  | some "VECTOR" => "inline-block"
  | some "BOOLEAN_OPERATION" => "inline-block"
  | some "RECTANGLE" => "block"
  | some "ELLIPSE" => "block"
  | _ => "block"

/-- The annotated entry `extractNodeStructure` returns for one node.
`tailwindClasses` is kept as the token array; the emitted string is its
space-join.  Informational sub-objects are omitted as in `NodeData`. -/
structure Structure where
  id : Option String
  name : Option String
  type : Option String
  depth : Nat
  visible : Option Bool
  componentId : Option String
  componentSetId : Option String
  text : Option String
  tailwindClasses : List String
  imageUrl : Option String
  children : List Structure
  childrenCount : Option Nat
deriving Repr

mutual

/-- `extractNodeStructure(node, depth)`: annotates the node and recurses
pre-order into its children.  It never tests `id` or `type` for presence,
emits no diagnostic, and drops no node. -/
def extract : Node → Nat → Structure
  | .mk data children, depth =>
    let styleTokens := tokensOf (buildTailwind data)
    { id := data.id
      name := data.name
      type := data.type
      depth := depth
      visible := data.visible
      componentId := if jsTruthyStr data.componentId then data.componentId else none
      componentSetId := if jsTruthyStr data.componentSetId then data.componentSetId else none
      text := if jsTruthyStr data.characters then data.characters else none
      tailwindClasses := if styleTokens.isEmpty then [fallbackToken data.type] else styleTokens
      imageUrl := none
      children := extractList children (depth + 1)
      childrenCount := if children.isEmpty then none else some children.length }

/-- `node.children.map(child => extractNodeStructure(child, depth + 1))` -/
def extractList : List Node → Nat → List Structure
  | [], _ => []
  | c :: cs, depth => extract c depth :: extractList cs depth

end

mutual

/-- Total number of nodes of an input tree (the node and all descendants). -/
def countNodes : Node → Nat
  | .mk _ children => 1 + countNodesList children

def countNodesList : List Node → Nat
  | [] => 0
  | c :: cs => countNodes c + countNodesList cs

end

mutual

/-- Total number of annotated entries of an output tree. -/
def countEntries : Structure → Nat
  | ⟨_, _, _, _, _, _, _, _, _, _, children, _⟩ => 1 + countEntriesList children

def countEntriesList : List Structure → Nat
  | [] => 0
  | c :: cs => countEntries c + countEntriesList cs

end

mutual

/-- All entries of an annotated tree, the entry itself included (pre-order). -/
def structNodes : Structure → List Structure
  | ⟨id, name, ty, depth, vis, cid, csid, tx, tw, iu, children, cc⟩ =>
    ⟨id, name, ty, depth, vis, cid, csid, tx, tw, iu, children, cc⟩ :: structNodesList children

def structNodesList : List Structure → List Structure
  | [] => []
  | c :: cs => structNodes c ++ structNodesList cs

end

mutual

/-- `collectImageNodes`: pre-order ids of nodes with some IMAGE fill.  The
source pushes `node.id` unconditionally, so a malformed id is pushed as
`undefined`; hence the element type `Option String`. -/
def collectImageNodes : Node → List (Option String)
  | .mk data children =>
    (if data.fills.any (fun f => f.type == "IMAGE") then [data.id] else [])
      ++ collectImageNodesList children

def collectImageNodesList : List Node → List (Option String)
  | [] => []
  | c :: cs => collectImageNodes c ++ collectImageNodesList cs

end

/-- `getImages`: the batched image-URL request.  The response is modelled as
`Except` (transport or API error on the left); a successful response may
itself miss the `images` field (`imageData.images || {}`).  On any failure
the catch block returns the empty mapping. -/
def getImages (resp : Except String (Option (List (String × String)))) :
    List (String × String) :=
  match resp with
  | .ok m => m.getD []
  | .error _ => []

/-- JS `imageUrls[structure.id]` where `structure.id` may be missing. -/
def jsLookup (m : List (String × String)) (k : Option String) : Option String :=
  k.bind (fun s => List.lookup s m)

mutual

/-- `addImageUrls`: sets `imageUrl` on every node whose id resolves to a
truthy URL, recursing into children; all other fields are untouched. -/
def addImageUrls (m : List (String × String)) : Structure → Structure
  | ⟨id, name, ty, depth, vis, cid, csid, tx, tw, iu, children, cc⟩ =>
    let iu' := match jsLookup m id with
      | some u => if u = "" then iu else some u
      | none => iu
    ⟨id, name, ty, depth, vis, cid, csid, tx, tw, iu', addImageUrlsList m children, cc⟩

def addImageUrlsList (m : List (String × String)) : List Structure → List Structure
  | [] => []
  | c :: cs => addImageUrls m c :: addImageUrlsList m cs

end

mutual

/-- `countAllChildren`: immediate children count plus the recursive count of
each child (the full descendant count). -/
def countAllChildren : Structure → Nat
  | ⟨_, _, _, _, _, _, _, _, _, _, children, _⟩ =>
    children.length + countAllChildrenSum children

def countAllChildrenSum : List Structure → Nat
  | [] => 0
  | c :: cs => countAllChildren c + countAllChildrenSum cs

end

/-- One entry of `componentAnalysis.instances`. -/
structure InstanceRef where
  id : Option String
  name : Option String
  componentId : Option String
deriving Repr, DecidableEq

/-- One entry of `componentAnalysis.components`. -/
structure ComponentRef where
  id : Option String
  name : Option String
deriving Repr, DecidableEq

mutual

/-- `analyzeComponents`: collects INSTANCE and COMPONENT entries, the node
itself first, then each child's results in order. -/
def analyzeComponents : Structure → List InstanceRef × List ComponentRef
  | ⟨id, name, ty, _, _, cid, _, _, _, _, children, _⟩ =>
    let selfInst : List InstanceRef :=
      if ty = some "INSTANCE" ∧ jsTruthyStr cid then [⟨id, name, cid⟩] else []
    let selfComp : List ComponentRef :=
      if ty = some "COMPONENT" then [⟨id, name⟩] else []
    let rest := analyzeComponentsList children
    (selfInst ++ rest.1, selfComp ++ rest.2)

def analyzeComponentsList : List Structure → List InstanceRef × List ComponentRef
  | [] => ([], [])
  | c :: cs =>
    let a := analyzeComponents c
    let b := analyzeComponentsList cs
    (a.1 ++ b.1, a.2 ++ b.2)

end

structure ComponentAnalysis where
  instanceCount : Nat
  componentCount : Nat
  components : List ComponentRef
  instances : List InstanceRef
deriving Repr, DecidableEq

/-- The output document `getNodeStructure` writes (its `structure` field is
named `tree` here because `structure` is a Lean keyword). -/
structure Output where
  nodeId : String
  nodeName : Option String
  nodeType : Option String
  directChildrenCount : Nat
  totalDescendants : Nat
  tree : Structure
  extractedAt : String
  componentAnalysis : ComponentAnalysis
deriving Repr

/-- The pure core of `getNodeStructure` after the root subtree has been
fetched: walk the tree, resolve images when any node carries an IMAGE fill
(merging an empty mapping when the batched call failed), then aggregate the
report.  `ts` is the `new Date().toISOString()` value. -/
def runPipeline (nodeId : String) (node : Node)
    (resp : Except String (Option (List (String × String)))) (ts : String) : Output :=
  let structure0 := extract node 0
  let imageNodeIds := collectImageNodes node
  let structure1 :=
    if imageNodeIds.isEmpty then structure0
    else addImageUrls (getImages resp) structure0
  let a := analyzeComponents structure1
  { nodeId := nodeId
    nodeName := node.data.name
    nodeType := node.data.type
    directChildrenCount := structure1.children.length
    totalDescendants := countAllChildren structure1
    tree := structure1
    extractedAt := ts
    componentAnalysis :=
      { instanceCount := a.1.length
        componentCount := a.2.length
        components := a.2
        instances := a.1 } }

/-! ### Generic lookup lemmas -/

theorem lookup_isSome_iff {α β : Type} [BEq α] [LawfulBEq α] (k : α) (l : List (α × β)) :
    (List.lookup k l).isSome = true ↔ k ∈ l.map Prod.fst := by
  induction l with
  | nil => simp [List.lookup]
  | cons p ps ih =>
    rw [List.lookup]
    by_cases hk : k = p.1
    · simp [hk]
    · have hb : (k == p.1) = false := by simp [hk]
      simp [hb, ih, hk]

theorem lookup_eq_none_of_not_mem {α β : Type} [BEq α] [LawfulBEq α] {k : α}
    {l : List (α × β)} (h : k ∉ l.map Prod.fst) : List.lookup k l = none := by
  have := (lookup_isSome_iff k l).not.mpr h
  cases he : List.lookup k l with
  | none => rfl
  | some v => rw [he] at this; simp at this

theorem lookup_isSome_of_mem {α β : Type} [BEq α] [LawfulBEq α] {k : α}
    {l : List (α × β)} (h : k ∈ l.map Prod.fst) : ∃ v, List.lookup k l = some v := by
  have := (lookup_isSome_iff k l).mpr h
  cases he : List.lookup k l with
  | none => rw [he] at this; simp at this
  | some v => exact ⟨v, rfl⟩

/-! ### C1: the tree walk produces one entry per input node -/

mutual

theorem extract_count (n : Node) (d : Nat) : countEntries (extract n d) = countNodes n := by
  cases n with
  | mk data children =>
    simp [extract, countEntries, countNodes, extract_count_list children (d + 1)]

theorem extract_count_list (ns : List Node) (d : Nat) :
    countEntriesList (extractList ns d) = countNodesList ns := by
  cases ns with
  | nil => simp [extractList, countEntriesList, countNodesList]
  | cons c cs =>
    simp [extractList, countEntriesList, countNodesList, extract_count c d,
      extract_count_list cs d]

end

theorem extractList_eq_map (ns : List Node) (d : Nat) :
    extractList ns d = ns.map (fun c => extract c d) := by
  induction ns with
  | nil => simp [extractList]
  | cons c cs ih => simp [extractList, ih]

/-- C1 (amended): `extractNodeStructure` produces exactly one annotated
entry per input node — N nodes in, N entries out — whether or not a node
carries `id` and `type`; children are annotated in sibling order, each by a
recursive call at depth + 1, so parent-before-child structure is preserved.
(No malformed-node check and no diagnostic exist in the walk.) -/
theorem extract_entry_count (n : Node) (d : Nat) :
    countEntries (extract n d) = countNodes n ∧
    (extract n d).children = n.children.map (fun c => extract c (d + 1)) := by
  refine ⟨extract_count n d, ?_⟩
  cases n with
  | mk data children => simp [extract, Node.children, extractList_eq_map]

/-- A 2-node tree whose child is malformed: it has neither `id` nor `type`. -/
def malformedChildTree : Node :=
  .mk ⟨some "1:0", some "root", some "FRAME", none, none, none, none, [], [], none,
       none, none, none, none, none, none, none, none, none, none, none, none,
       none, none, []⟩
    [.mk ⟨none, some "broken", none, none, none, none, none, [], [], none,
          none, none, none, none, none, none, none, none, none, none, none, none,
          none, none, []⟩ []]

/-- C1 (counterexample): on a tree with 2 nodes one of which is malformed
(missing `id` and `type`), the walk still produces 2 entries, not the 1
entry the claim requires; the malformed child is not skipped. -/
theorem malformed_node_not_skipped :
    countEntries (extract malformedChildTree 0) = 2 ∧
    countEntries (extract malformedChildTree 0) ≠ 1 ∧
    (extract malformedChildTree 0).children.length = 1 := by
  refine ⟨?_, ?_, ?_⟩ <;> decide

/-! ### C2: scale snapping -/

/-- Modelled from the spec: the key list §4.2 gives for the single
"spacing/padding/gap" table (the source in fact uses two different tables
for gap and for padding). -/
def specSpacingKeys : List ℚ :=
  [0, 1, 2, 4, 6, 8, 10, 12, 16, 20, 24, 28, 32, 36, 40, 44, 48, 56, 64]

/-- C2 (counterexample): 28 is a key of the spec's claimed spacing table and
the padding map indeed names it (`p-7`), but the gap map has no 28 entry, so
the gap snapper emits the arbitrary-value token `gap-[28px]` instead of the
named token the claim requires. -/
theorem gap_snap_counterexample :
    (28 : ℚ) ∈ specSpacingKeys ∧
    List.lookup (28 : ℚ) gapList = none ∧
    gapToken 28 = "gap-[28px]" ∧
    pToken 28 = "p-7" := by
  refine ⟨?_, ?_, ?_, ?_⟩ <;> decide

/-- C2 (amended): exact-key-or-arbitrary holds for each mapping relative to
its own key set — but the gap map's keys (0,1,2,4,6,8,10,12,16,20,24,32)
and the padding map's keys (0,1,2,4,6,8,10,12,14,16,20,24,28,32,36,40,44,
48,56,64) differ, so the rule does not hold uniformly over one shared
table.  For v = 0 and v = 8 both maps return their named token, and for
v = 7 both return an arbitrary-value token embedding the literal 7. -/
theorem snap_exact_key_or_arbitrary (v : ℚ) :
    (v ∈ gapList.map Prod.fst →
      ∃ s, List.lookup v gapList = some s ∧ gapToken v = s) ∧
    (v ∉ gapList.map Prod.fst → gapToken v = "gap-[" ++ numStr v ++ "px]") ∧
    (v ∈ spacingList.map Prod.fst →
      ∃ s, List.lookup v spacingList = some s ∧ pToken v = "p-" ++ s) ∧
    (v ∉ spacingList.map Prod.fst → pToken v = "p-[" ++ numStr v ++ "px]") ∧
    gapToken 0 = "gap-0" ∧ gapToken 8 = "gap-2" ∧ gapToken 7 = "gap-[7px]" ∧
    pToken 0 = "p-0" ∧ pToken 8 = "p-2" ∧ pToken 7 = "p-[7px]" := by
  refine ⟨?_, ?_, ?_, ?_, by decide, by decide, by decide, by decide, by decide, by decide⟩
  · intro hv
    obtain ⟨s, hs⟩ := lookup_isSome_of_mem hv
    exact ⟨s, hs, by simp [gapToken, hs]⟩
  · intro hv
    simp [gapToken, lookup_eq_none_of_not_mem hv]
  · intro hv
    obtain ⟨s, hs⟩ := lookup_isSome_of_mem hv
    exact ⟨s, hs, by simp [pToken, hs]⟩
  · intro hv
    simp [pToken, lookup_eq_none_of_not_mem hv]

/-- C2 witness: the amended snapping rule evaluated at the concrete inputs
8 (a key of both maps) and 9 (a key of neither map). -/
theorem snap_exact_key_or_arbitrary_witness :
    (∃ s, List.lookup (8 : ℚ) gapList = some s ∧ gapToken 8 = s) ∧
    gapToken 9 = "gap-[" ++ numStr 9 ++ "px]" ∧
    (∃ s, List.lookup (8 : ℚ) spacingList = some s ∧ pToken 8 = "p-" ++ s) ∧
    pToken 9 = "p-[" ++ numStr 9 ++ "px]" :=
  ⟨(snap_exact_key_or_arbitrary 8).1 (by decide),
   (snap_exact_key_or_arbitrary 9).2.1 (by decide),
   (snap_exact_key_or_arbitrary 8).2.2.1 (by decide),
   (snap_exact_key_or_arbitrary 9).2.2.2.1 (by decide)⟩

/-! ### C3 / C10: palette matching -/

/-- JS `Math.round` agrees with mathematical rounding `round` (which on
nonnegative input is round-half-away-from-zero). -/
theorem jsRound_eq_round (q : ℚ) : jsRound q = round q := by
  rw [jsRound, round_eq, Rat.floor_def', Rat.floor_def]

theorem colorToken_of_alpha_lt_one (table : List (String × String)) (pre : String)
    (c : Color) (a : ℚ) (h0 : 0 < a) (h1 : a < 1) :
    colorToken table pre c (some a) =
      pre ++ "-[rgb(" ++ rgbKey c ++ "/" ++ numStr a ++ ")]" := by
  have ha : jsOrOne (some a) = a := by simp [jsOrOne, ne_of_gt h0]
  have hne : ¬(a = 1) := by intro h; rw [h] at h1; exact lt_irrefl 1 h1
  simp [colorToken, ha, hne, h1]

theorem colorToken_of_alpha_one (table : List (String × String)) (pre : String)
    (c : Color) :
    colorToken table pre c (some 1) =
      match List.lookup (rgbKey c) table with
      | some name => name
      | none => pre ++ "-[rgb(" ++ rgbKey c ++ ")]" := by
  have ha : jsOrOne (some 1) = 1 := by simp [jsOrOne]
  cases h : List.lookup (rgbKey c) table with
  | some name => simp [colorToken, ha, h]
  | none => simp [colorToken, ha, h]

/-- C3 (counterexample): a solid white paint with `opacity` exactly 0 has
alpha < 1, so the claim requires an alpha-embedding arbitrary-value token;
the code's `solidFill.opacity || 1` turns the falsy 0 into 1 and returns the
bare named token `bg-white` instead. -/
theorem matchColor_alpha_zero_counterexample :
    bgColorToken ⟨1, 1, 1⟩ (some 0) = "bg-white" ∧
    bgColorToken ⟨1, 1, 1⟩ (some 0) ≠ "bg-[rgb(255 255 255/0)]" := by
  constructor <;> with_unfolding_all decide

/-- C3 (amended): for a solid paint with components in [0,1], r,g,b are
converted to 0-255 integers by `Math.round` (= mathematical rounding, i.e.
round-half-away-from-zero on this nonnegative range); for alpha strictly
between 0 and 1 an arbitrary-value token embedding rgb and alpha is
returned; for alpha = 1 the bare table name is returned exactly when the
`"R G B"` key is present (membership only, never a nearest entry) and an
rgb-only arbitrary-value token otherwise.  Alpha = 0 is excluded: the code
treats it as 1 (see the counterexample and C10). -/
theorem matchColor_spec (c : Color) (a : ℚ) :
    (0 < a → a < 1 →
      bgColorToken c (some a) = "bg-[rgb(" ++ rgbKey c ++ "/" ++ numStr a ++ ")]") ∧
    (∀ name, List.lookup (rgbKey c) commonColors = some name →
      bgColorToken c (some 1) = name) ∧
    (List.lookup (rgbKey c) commonColors = none →
      bgColorToken c (some 1) = "bg-[rgb(" ++ rgbKey c ++ ")]") ∧
    jsRound (c.r * 255) = round (c.r * 255) := by
  refine ⟨fun h0 h1 => colorToken_of_alpha_lt_one _ _ c a h0 h1, ?_, ?_,
    jsRound_eq_round _⟩
  · intro name h
    rw [bgColorToken, colorToken_of_alpha_one, h]
  · intro h
    rw [bgColorToken, colorToken_of_alpha_one, h]
    rfl

/-- C3 witness: the amended rule at concrete paints — white at alpha 1 maps
to the bare name; the near-miss 254 254 254 at alpha 1 falls through to the
arbitrary-value token (not to the nearest entry `bg-white`); white at
alpha 1/2 embeds rgb and alpha. -/
theorem matchColor_spec_witness :
    bgColorToken ⟨1, 1, 1⟩ (some 1) = "bg-white" ∧
    bgColorToken ⟨254/255, 254/255, 254/255⟩ (some 1) =
      "bg-[rgb(" ++ rgbKey ⟨254/255, 254/255, 254/255⟩ ++ ")]" ∧
    bgColorToken ⟨1, 1, 1⟩ (some (1/2)) =
      "bg-[rgb(" ++ rgbKey ⟨1, 1, 1⟩ ++ "/" ++ numStr (1/2) ++ ")]" :=
  ⟨(matchColor_spec ⟨1, 1, 1⟩ 1).2.1 "bg-white" (by with_unfolding_all decide),
   (matchColor_spec ⟨254/255, 254/255, 254/255⟩ 1).2.2.1 (by with_unfolding_all decide),
   (matchColor_spec ⟨1, 1, 1⟩ (1/2)).1 (by with_unfolding_all decide)
     (by with_unfolding_all decide)⟩

/-- C10: a first visible SOLID fill (or stroke) whose `opacity` is exactly 0
is annotated exactly as a fully opaque one: `opacity || 1` makes alpha = 1,
so the bare named token is emitted when the integer-rounded key is in the
table and an rgb-only arbitrary-value token (with no alpha component)
otherwise — never an alpha-embedding token. -/
theorem zero_opacity_alpha_one (c : Color) :
    bgColorToken c (some 0) = bgColorToken c (some 1) ∧
    bgColorToken c (some 0) = bgColorToken c none ∧
    borderColorToken c (some 0) = borderColorToken c (some 1) ∧
    (∀ name, List.lookup (rgbKey c) commonColors = some name →
      bgColorToken c (some 0) = name) ∧
    (List.lookup (rgbKey c) commonColors = none →
      bgColorToken c (some 0) = "bg-[rgb(" ++ rgbKey c ++ ")]") ∧
    (∀ name, List.lookup (rgbKey c) commonBorderColors = some name →
      borderColorToken c (some 0) = name) ∧
    (List.lookup (rgbKey c) commonBorderColors = none →
      borderColorToken c (some 0) = "border-[rgb(" ++ rgbKey c ++ ")]") := by
  have h01 : jsOrOne (some 0) = jsOrOne (some 1) := by simp [jsOrOne]
  have h0n : jsOrOne (some 0) = jsOrOne none := by simp [jsOrOne]
  have hbg : bgColorToken c (some 0) = bgColorToken c (some 1) := by
    simp only [bgColorToken, colorToken, h01]
  have hbd : borderColorToken c (some 0) = borderColorToken c (some 1) := by
    simp only [borderColorToken, colorToken, h01]
  refine ⟨hbg, by simp only [bgColorToken, colorToken, h0n], hbd, ?_, ?_, ?_, ?_⟩
  · intro name h
    rw [hbg, bgColorToken, colorToken_of_alpha_one, h]
  · intro h
    rw [hbg, bgColorToken, colorToken_of_alpha_one, h]
    rfl
  · intro name h
    rw [hbd, borderColorToken, colorToken_of_alpha_one, h]
  · intro h
    rw [hbd, borderColorToken, colorToken_of_alpha_one, h]
    rfl

/-- C10 witness: a fully transparent white fill still yields `bg-white`, and
a fully transparent pure-red stroke (not in the border table) yields the
rgb-only arbitrary token. -/
theorem zero_opacity_alpha_one_witness :
    bgColorToken ⟨1, 1, 1⟩ (some 0) = "bg-white" ∧
    borderColorToken ⟨1, 0, 0⟩ (some 0) =
      "border-[rgb(" ++ rgbKey ⟨1, 0, 0⟩ ++ ")]" :=
  ⟨(zero_opacity_alpha_one ⟨1, 1, 1⟩).2.2.2.1 "bg-white"
      (by with_unfolding_all decide),
   (zero_opacity_alpha_one ⟨1, 0, 0⟩).2.2.2.2.2.2
      (by with_unfolding_all decide)⟩

/-! ### C4: padding collapse -/

/-- C4: four exactly-equal padding sides collapse to the single combined
token; if any two sides differ, exactly four side-specific tokens (top,
right, bottom, left) are emitted, each snapped to the spacing table
independently of the others. -/
theorem padding_collapse (top right bottom left : ℚ) :
    (top = right → right = bottom → bottom = left →
      paddingTokens top right bottom left = [pToken top] ∧
      (paddingTokens top right bottom left).length = 1) ∧
    (¬(top = right ∧ right = bottom ∧ bottom = left) →
      paddingTokens top right bottom left =
        [sideToken "pt" top, sideToken "pr" right,
         sideToken "pb" bottom, sideToken "pl" left] ∧
      (paddingTokens top right bottom left).length = 4) := by
  constructor
  · intro h1 h2 h3
    simp [paddingTokens, h1, h2, h3]
  · intro h
    simp [paddingTokens, h]

/-- C4 witness: equal sides 16 collapse to `p-4`; the unequal sides
(16, 8, 7, 0) produce the four independently-snapped tokens. -/
theorem padding_collapse_witness :
    paddingTokens 16 16 16 16 = [pToken 16] ∧
    paddingTokens 16 8 7 0 =
      [sideToken "pt" 16, sideToken "pr" 8, sideToken "pb" 7, sideToken "pl" 0] ∧
    pToken 16 = "p-4" ∧ sideToken "pt" 16 = "pt-4" ∧ sideToken "pr" 8 = "pr-2" ∧
    sideToken "pb" 7 = "pb-[7px]" ∧ sideToken "pl" 0 = "pl-0" :=
  ⟨((padding_collapse 16 16 16 16).1 rfl rfl rfl).1,
   ((padding_collapse 16 8 7 0).2 (by decide)).1,
   by decide, by decide, by decide, by decide, by decide⟩

/-! ### C5: axis-dependent alignment mapping -/

/-- C5: primary-axis MIN/CENTER/MAX maps to justify-start/center/end under
HORIZONTAL layout and to items-start/center/end under VERTICAL, while
counter-axis alignment maps the opposite way — the cross-swapped table. -/
theorem alignment_cross_swap :
    primaryAlignToken (some "HORIZONTAL") "MIN" = some "justify-start" ∧
    primaryAlignToken (some "HORIZONTAL") "CENTER" = some "justify-center" ∧
    primaryAlignToken (some "HORIZONTAL") "MAX" = some "justify-end" ∧
    primaryAlignToken (some "VERTICAL") "MIN" = some "items-start" ∧
    primaryAlignToken (some "VERTICAL") "CENTER" = some "items-center" ∧
    primaryAlignToken (some "VERTICAL") "MAX" = some "items-end" ∧
    counterAlignToken (some "HORIZONTAL") "MIN" = some "items-start" ∧
    counterAlignToken (some "HORIZONTAL") "CENTER" = some "items-center" ∧
    counterAlignToken (some "HORIZONTAL") "MAX" = some "items-end" ∧
    counterAlignToken (some "VERTICAL") "MIN" = some "justify-start" ∧
    counterAlignToken (some "VERTICAL") "CENTER" = some "justify-center" ∧
    counterAlignToken (some "VERTICAL") "MAX" = some "justify-end" := by
  decide

/-! ### C6: every annotated node has a non-empty token sequence -/

/-- `NodeData` with every attribute absent. -/
def noneData : NodeData :=
  ⟨none, none, none, none, none, none, none, [], [], none, none, none, none,
   none, none, none, none, none, none, none, none, none, none, none, []⟩

theorem extract_tailwindClasses (data : NodeData) (children : List Node) (d : Nat) :
    (extract (.mk data children) d).tailwindClasses =
      if (tokensOf (buildTailwind data)).isEmpty then [fallbackToken data.type]
      else tokensOf (buildTailwind data) := rfl

theorem structNodes_self_mem (s : Structure) : s ∈ structNodes s := by
  cases s with
  | mk id name ty depth vis cid csid tx tw iu children cc =>
    rw [structNodes]
    exact List.mem_cons_self _ _

mutual

theorem extract_all_tokens_ne_nil (n : Node) (d : Nat) :
    ∀ s ∈ structNodes (extract n d), s.tailwindClasses ≠ [] := by
  cases n with
  | mk data children =>
    intro s hs
    rw [extract, structNodes] at hs
    rcases List.mem_cons.mp hs with h | h
    · subst h
      cases htok : tokensOf (buildTailwind data) with
      | nil => simp [htok]
      | cons a l => simp [htok]
    · exact extract_all_tokens_ne_nil_list children (d + 1) s h

theorem extract_all_tokens_ne_nil_list (ns : List Node) (d : Nat) :
    ∀ s ∈ structNodesList (extractList ns d), s.tailwindClasses ≠ [] := by
  cases ns with
  | nil =>
    intro s hs
    rw [extractList, structNodesList] at hs
    exact absurd hs (List.not_mem_nil s)
  | cons c cs =>
    intro s hs
    rw [extractList, structNodesList] at hs
    rcases List.mem_append.mp hs with h | h
    · exact extract_all_tokens_ne_nil c d s h
    · exact extract_all_tokens_ne_nil_list cs d s h

end

/-- C6: every node of the walked output has a non-empty class-token
sequence; a node none of whose style attributes produced a token receives
exactly one fallback token chosen solely by its node type — `text-base` for
TEXT, `block` for FRAME/GROUP/INSTANCE/RECTANGLE/ELLIPSE, `inline-block`
for VECTOR/BOOLEAN_OPERATION. -/
theorem every_node_has_tokens (n : Node) (d : Nat) :
    (∀ s, s ∈ structNodes (extract n d) → s.tailwindClasses ≠ []) ∧
    (∀ data children, tokensOf (buildTailwind data) = [] →
      (extract (.mk data children) d).tailwindClasses = [fallbackToken data.type]) ∧
    fallbackToken (some "TEXT") = "text-base" ∧
    fallbackToken (some "FRAME") = "block" ∧
    fallbackToken (some "GROUP") = "block" ∧
    fallbackToken (some "INSTANCE") = "block" ∧
    fallbackToken (some "RECTANGLE") = "block" ∧
    fallbackToken (some "ELLIPSE") = "block" ∧
    fallbackToken (some "VECTOR") = "inline-block" ∧
    fallbackToken (some "BOOLEAN_OPERATION") = "inline-block" := by
  refine ⟨extract_all_tokens_ne_nil n d, ?_, rfl, rfl, rfl, rfl, rfl, rfl, rfl, rfl⟩
  intro data children htok
  rw [extract_tailwindClasses, htok]
  rfl

/-- C6 witness: a TEXT node with no style attributes at all gets exactly the
one fallback token `text-base`, and its token sequence is non-empty. -/
theorem every_node_has_tokens_witness :
    (extract (.mk { noneData with type := some "TEXT" } []) 0).tailwindClasses ≠ [] ∧
    (extract (.mk { noneData with type := some "TEXT" } []) 0).tailwindClasses =
      [fallbackToken (some "TEXT")] :=
  ⟨(every_node_has_tokens (.mk { noneData with type := some "TEXT" } []) 0).1 _
      (structNodes_self_mem _),
   (every_node_has_tokens (.mk { noneData with type := some "TEXT" } []) 0).2.1
      { noneData with type := some "TEXT" } [] (by decide)⟩

/-! ### C7: image-batch failure is isolated -/

mutual

theorem addImageUrls_nil : ∀ s, addImageUrls [] s = s := by
  intro s
  cases s with
  | mk id name ty depth vis cid csid tx tw iu children cc =>
    rw [addImageUrls]
    cases id with
    | none => simp [jsLookup, addImageUrls_nil_list children]
    | some i => simp [jsLookup, List.lookup, addImageUrls_nil_list children]

theorem addImageUrls_nil_list : ∀ ns, addImageUrlsList ([] : List (String × String)) ns = ns := by
  intro ns
  cases ns with
  | nil => rw [addImageUrlsList]
  | cons c cs => rw [addImageUrlsList, addImageUrls_nil c, addImageUrls_nil_list cs]

end

mutual

theorem extract_imageUrl_none (n : Node) (d : Nat) :
    ∀ s ∈ structNodes (extract n d), s.imageUrl = none := by
  cases n with
  | mk data children =>
    intro s hs
    rw [extract, structNodes] at hs
    rcases List.mem_cons.mp hs with h | h
    · subst h; rfl
    · exact extract_imageUrl_none_list children (d + 1) s h

theorem extract_imageUrl_none_list (ns : List Node) (d : Nat) :
    ∀ s ∈ structNodesList (extractList ns d), s.imageUrl = none := by
  cases ns with
  | nil =>
    intro s hs
    rw [extractList, structNodesList] at hs
    exact absurd hs (List.not_mem_nil s)
  | cons c cs =>
    intro s hs
    rw [extractList, structNodesList] at hs
    rcases List.mem_append.mp hs with h | h
    · exact extract_imageUrl_none c d s h
    · exact extract_imageUrl_none_list cs d s h

end

theorem addImageUrlsList_length (m : List (String × String)) (ns : List Structure) :
    (addImageUrlsList m ns).length = ns.length := by
  induction ns with
  | nil => rw [addImageUrlsList]
  | cons c cs ih => rw [addImageUrlsList]; simp [ih]

mutual

theorem countAllChildren_addImageUrls (m : List (String × String)) (s : Structure) :
    countAllChildren (addImageUrls m s) = countAllChildren s := by
  cases s with
  | mk id name ty depth vis cid csid tx tw iu children cc =>
    rw [addImageUrls, countAllChildren, countAllChildren, addImageUrlsList_length,
      countAllChildren_addImageUrls_sum m children]

theorem countAllChildren_addImageUrls_sum (m : List (String × String)) (ns : List Structure) :
    countAllChildrenSum (addImageUrlsList m ns) = countAllChildrenSum ns := by
  cases ns with
  | nil => rw [addImageUrlsList]
  | cons c cs =>
    rw [addImageUrlsList, countAllChildrenSum, countAllChildrenSum,
      countAllChildren_addImageUrls m c, countAllChildren_addImageUrls_sum m cs]

end

mutual

theorem analyzeComponents_addImageUrls (m : List (String × String)) (s : Structure) :
    analyzeComponents (addImageUrls m s) = analyzeComponents s := by
  cases s with
  | mk id name ty depth vis cid csid tx tw iu children cc =>
    rw [addImageUrls, analyzeComponents, analyzeComponents,
      analyzeComponents_addImageUrls_list m children]

theorem analyzeComponents_addImageUrls_list (m : List (String × String)) (ns : List Structure) :
    analyzeComponentsList (addImageUrlsList m ns) = analyzeComponentsList ns := by
  cases ns with
  | nil => rw [addImageUrlsList]
  | cons c cs =>
    rw [addImageUrlsList, analyzeComponentsList, analyzeComponentsList,
      analyzeComponents_addImageUrls m c, analyzeComponents_addImageUrls_list m cs]

end

theorem runPipeline_error_tree (nodeId : String) (n : Node) (e : String) (ts : String) :
    (runPipeline nodeId n (.error e) ts).tree = extract n 0 := by
  rw [runPipeline]
  cases h : (collectImageNodes n).isEmpty with
  | true => simp [h, getImages]
  | false => simp [h, getImages, addImageUrls_nil]

/-- C7: if the batched image-URL request fails, `getImages` returns the
empty mapping, no node of the annotated tree carries an `imageUrl`, and the
pipeline still emits the full report: the output is identical to a
successful run that resolved no URLs, and every field other than the tree's
`imageUrl` annotations agrees with any successful run.  When the request
succeeds and image nodes exist, the resolved URLs are merged onto the
already-walked tree by node id via `addImageUrls`. -/
theorem image_failure_isolated (nodeId : String) (n : Node) (e : String)
    (m : List (String × String)) (ts : String) :
    getImages (.error e) = [] ∧
    runPipeline nodeId n (.error e) ts = runPipeline nodeId n (.ok (some [])) ts ∧
    (∀ s, s ∈ structNodes (runPipeline nodeId n (.error e) ts).tree → s.imageUrl = none) ∧
    (runPipeline nodeId n (.error e) ts).nodeName =
      (runPipeline nodeId n (.ok (some m)) ts).nodeName ∧
    (runPipeline nodeId n (.error e) ts).nodeType =
      (runPipeline nodeId n (.ok (some m)) ts).nodeType ∧
    (runPipeline nodeId n (.error e) ts).directChildrenCount =
      (runPipeline nodeId n (.ok (some m)) ts).directChildrenCount ∧
    (runPipeline nodeId n (.error e) ts).totalDescendants =
      (runPipeline nodeId n (.ok (some m)) ts).totalDescendants ∧
    (runPipeline nodeId n (.error e) ts).componentAnalysis =
      (runPipeline nodeId n (.ok (some m)) ts).componentAnalysis ∧
    (collectImageNodes n ≠ [] →
      (runPipeline nodeId n (.ok (some m)) ts).tree = addImageUrls m (extract n 0)) := by
  refine ⟨rfl, rfl, ?_, rfl, rfl, ?_, ?_, ?_, ?_⟩
  · intro s hs
    rw [runPipeline_error_tree] at hs
    exact extract_imageUrl_none n 0 s hs
  · rw [runPipeline, runPipeline]
    cases h : (collectImageNodes n).isEmpty with
    | true => simp [h]
    | false =>
      simp only [h, Bool.false_eq_true, if_false, getImages, Option.getD_some,
        addImageUrls_nil]
      cases hs : extract n 0 with
      | mk id name ty depth vis cid csid tx tw iu children cc =>
        rw [addImageUrls]
        simp [addImageUrlsList_length]
  · rw [runPipeline, runPipeline]
    cases h : (collectImageNodes n).isEmpty with
    | true => simp [h]
    | false =>
      simp only [h, Bool.false_eq_true, if_false, getImages, Option.getD_some,
        addImageUrls_nil]
      rw [countAllChildren_addImageUrls]
  · rw [runPipeline, runPipeline]
    cases h : (collectImageNodes n).isEmpty with
    | true => simp [h]
    | false =>
      simp only [h, Bool.false_eq_true, if_false, getImages, Option.getD_some,
        addImageUrls_nil]
      rw [analyzeComponents_addImageUrls]
  · intro hne
    rw [runPipeline]
    have h : (collectImageNodes n).isEmpty = false := by
      cases hc : collectImageNodes n with
      | nil => exact absurd hc hne
      | cons a l => rfl
    simp [h, getImages]

/-- A 1-node RECTANGLE tree whose fill is an IMAGE paint, with id `i1`. -/
def imageFillTree : Node :=
  .mk { noneData with
          id := some "i1"
          type := some "RECTANGLE"
          fills := [⟨"IMAGE", none, none, none⟩] } []

/-- C7 witness: on the concrete image-bearing tree, a failed batch leaves
the root unannotated, and a successful batch merges the mapping in. -/
theorem image_failure_isolated_witness :
    (runPipeline "2033:13526" imageFillTree (.error "socket hang up") "t").tree.imageUrl
      = none ∧
    (runPipeline "2033:13526" imageFillTree
        (.ok (some [("i1", "https://img/1.png")])) "t").tree =
      addImageUrls [("i1", "https://img/1.png")] (extract imageFillTree 0) :=
  ⟨(image_failure_isolated "2033:13526" imageFillTree "socket hang up" [] "t").2.2.1 _
      (structNodes_self_mem _),
   (image_failure_isolated "2033:13526" imageFillTree "socket hang up"
      [("i1", "https://img/1.png")] "t").2.2.2.2.2.2.2.2 (by decide)⟩

/-! ### C8: fixed token precedence order -/

/-- The precedence categories named by the spec, in the spec's order:
display/layout mode, primary-axis alignment, counter-axis alignment, item
spacing, width, height, padding, background color, border width, border
color, border radius, font size, font family, font weight, text alignment,
opacity, drop shadow.  (The source additionally interleaves line height,
letter spacing and text color; they do not disturb this relative order.) -/
def specOrderProjs : List (Tailwind → Option String) :=
  [Tailwind.display, Tailwind.flexDirection, Tailwind.primaryAlignment,
   Tailwind.counterAlignment, Tailwind.gap, Tailwind.width, Tailwind.height,
   Tailwind.padding, Tailwind.backgroundColor, Tailwind.borderWidth,
   Tailwind.borderColor, Tailwind.borderRadius, Tailwind.fontSize,
   Tailwind.fontFamily, Tailwind.fontWeight, Tailwind.textAlign,
   Tailwind.opacity, Tailwind.shadow]

/-- The tokens of the spec's precedence categories, in the spec's order. -/
def specOrderTokens (tw : Tailwind) : List String :=
  specOrderProjs.filterMap (fun f => f tw)

theorem specOrderProjs_sublist : List.Sublist specOrderProjs allProjs := by
  rw [specOrderProjs, allProjs]
  exact .cons₂ _ (.cons₂ _ (.cons₂ _ (.cons₂ _ (.cons₂ _ (.cons₂ _ (.cons₂ _
    (.cons₂ _ (.cons₂ _ (.cons₂ _ (.cons₂ _ (.cons₂ _ (.cons₂ _ (.cons₂ _
    (.cons₂ _ (.cons _ (.cons _ (.cons₂ _ (.cons _ (.cons₂ _ (.cons₂ _
    .slnil))))))))))))))))))))

theorem mem_tokensOf_of_width {tw : Tailwind} {t : String} (h : tw.width = some t) :
    t ∈ tokensOf tw := by
  refine List.mem_filterMap.mpr ⟨Tailwind.width, ?_, h⟩
  simp [allProjs]

theorem mem_tokensOf_of_height {tw : Tailwind} {t : String} (h : tw.height = some t) :
    t ∈ tokensOf tw := by
  refine List.mem_filterMap.mpr ⟨Tailwind.height, ?_, h⟩
  simp [allProjs]

theorem tailwindClasses_eq_of_mem {data : NodeData} {children : List Node} {d : Nat}
    {t : String} (h : t ∈ tokensOf (buildTailwind data)) :
    (extract (.mk data children) d).tailwindClasses = tokensOf (buildTailwind data) := by
  rw [extract_tailwindClasses]
  cases htok : tokensOf (buildTailwind data) with
  | nil => rw [htok] at h; exact absurd h (List.not_mem_nil t)
  | cons a l => rfl

/-- C8: whatever subset of the precedence categories a node's attributes
produce, their tokens appear in the emitted token sequence in the fixed
spec order (as a sublist); and the width/height tokens are always the
verbatim bounding-box dimensions rounded to the nearest integer pixel —
`w-[..px]`/`h-[..px]` — never snapped to a scale. -/
theorem token_order (n : Node) (d : Nat) :
    List.Sublist (specOrderTokens (buildTailwind n.data)) (extract n d).tailwindClasses ∧
    (∀ bb, n.data.absoluteBoundingBox = some bb →
      ("w-[" ++ intToString (jsRound bb.width) ++ "px]") ∈ (extract n d).tailwindClasses ∧
      ("h-[" ++ intToString (jsRound bb.height) ++ "px]") ∈ (extract n d).tailwindClasses) := by
  cases n with
  | mk data children =>
    simp only [Node.data]
    constructor
    · have h : List.Sublist (specOrderTokens (buildTailwind data))
          (tokensOf (buildTailwind data)) := by
        rw [specOrderTokens, tokensOf]
        exact specOrderProjs_sublist.filterMap (fun f => f (buildTailwind data))
      rw [extract_tailwindClasses]
      cases htok : tokensOf (buildTailwind data) with
      | nil =>
        rw [htok] at h
        rw [List.sublist_nil.mp h]
        exact List.nil_sublist _
      | cons a l =>
        rw [htok] at h
        simpa using h
    · intro bb hbb
      have hw : (buildTailwind data).width =
          some ("w-[" ++ intToString (jsRound bb.width) ++ "px]") := by
        simp [buildTailwind, hbb]
      have hh : (buildTailwind data).height =
          some ("h-[" ++ intToString (jsRound bb.height) ++ "px]") := by
        simp [buildTailwind, hbb]
      have hwm := mem_tokensOf_of_width hw
      have hhm := mem_tokensOf_of_height hh
      rw [tailwindClasses_eq_of_mem hwm]
      exact ⟨hwm, hhm⟩

/-- A FRAME node with a concrete bounding box (width 120.4, height 48). -/
def sizedNode : Node :=
  .mk { noneData with
          type := some "FRAME"
          absoluteBoundingBox := some ⟨0, 0, 120.4, 48⟩ } []

/-- C8 witness: on the concrete sized node the ordered-sublist property
holds and the verbatim rounded width/height tokens are present. -/
theorem token_order_witness :
    List.Sublist (specOrderTokens (buildTailwind sizedNode.data))
      (extract sizedNode 0).tailwindClasses ∧
    ("w-[" ++ intToString (jsRound (120.4 : ℚ)) ++ "px]")
      ∈ (extract sizedNode 0).tailwindClasses ∧
    ("h-[" ++ intToString (jsRound (48 : ℚ)) ++ "px]")
      ∈ (extract sizedNode 0).tailwindClasses :=
  ⟨(token_order sizedNode 0).1,
   ((token_order sizedNode 0).2 ⟨0, 0, 120.4, 48⟩ rfl).1,
   ((token_order sizedNode 0).2 ⟨0, 0, 120.4, 48⟩ rfl).2⟩

/-! ### C9: determinism up to the timestamp -/

/-- C9: the pipeline is a pure function of the input tree and the image
response; two runs differing only in the wall-clock timestamp produce
identical output documents in every field except `extractedAt` (and the
whole output is literally identical, timestamp included, when the
timestamps agree). -/
theorem pipeline_deterministic (nodeId : String) (n : Node)
    (resp : Except String (Option (List (String × String)))) (ts1 ts2 : String) :
    { runPipeline nodeId n resp ts1 with extractedAt := "" } =
      { runPipeline nodeId n resp ts2 with extractedAt := "" } ∧
    (runPipeline nodeId n resp ts1).tree = (runPipeline nodeId n resp ts2).tree ∧
    (runPipeline nodeId n resp ts1).componentAnalysis =
      (runPipeline nodeId n resp ts2).componentAnalysis ∧
    (runPipeline nodeId n resp ts1).totalDescendants =
      (runPipeline nodeId n resp ts2).totalDescendants ∧
    (runPipeline nodeId n resp ts1).directChildrenCount =
      (runPipeline nodeId n resp ts2).directChildrenCount ∧
    (runPipeline nodeId n resp ts1).extractedAt = ts1 :=
  ⟨rfl, rfl, rfl, rfl, rfl, rfl⟩

end Figma
